import Mathlib

/-!
Shallow embedding of the curriculum data model of the bootcamp
management application (curriculum/models.py) together with the
enrollment / progress operations its specification describes.

Database rows become Lean structures; the relational store becomes
explicit lists of rows passed to the derived properties; reads of the
wall clock (timezone.now) become explicit `now` / `today` parameters.
Dates and datetimes are modelled as natural numbers (days / instants),
Django DecimalField and FloatField values as rationals.

Status fields are CharFields in the source and are kept as strings here,
compared against the same literals the source uses.
-/

namespace Bootcamp

/-- Course row (curriculum/models.py, class Course).  Fields irrelevant
to every claim (description, flags, timestamps) are carried only where a
claim mentions them. -/
structure Course where
  id : Nat
  slug : String
  name : String
  duration_months : Nat
  price_per_phase : ℚ
  is_active : Bool
  is_featured : Bool
  deriving Repr, DecidableEq

/-- Phase row (curriculum/models.py, class Phase).  The self-referential
many-to-many `prerequisites` is the list of prerequisite phase ids. -/
structure Phase where
  id : Nat
  courseId : Nat
  phase_number : Nat
  name : String
  duration_days : Nat
  prerequisites : List Nat
  is_active : Bool
  deriving Repr, DecidableEq

/-- Lesson row (curriculum/models.py, class Lesson). -/
structure Lesson where
  id : Nat
  phaseId : Nat
  day_number : Nat
  title : String
  has_knowledge_check : Bool
  is_published : Bool
  deriving Repr, DecidableEq

/-- Cohort row (curriculum/models.py, class Cohort).  `status` ranges
over the STATUS_CHOICES keys upcoming / active / completed / cancelled. -/
structure Cohort where
  id : Nat
  courseId : Nat
  name : String
  start_date : Nat
  end_date : Nat
  status : String
  max_students : Nat
  deriving Repr, DecidableEq

/-- StudentEnrollment row (curriculum/models.py, class
StudentEnrollment).  `status` ranges over the STATUS_CHOICES keys
pending / active / completed / dropped / suspended; `enrollment_date` is
the auto_now_add creation instant. -/
structure StudentEnrollment where
  userId : Nat
  cohortId : Nat
  enrollment_date : Nat
  status : String
  current_phase : Option Nat
  current_lesson : Option Nat
  deriving Repr, DecidableEq

/-- StudentProgress row (curriculum/models.py, class StudentProgress). -/
structure StudentProgress where
  userId : Nat
  lessonId : Nat
  is_completed : Bool
  completion_date : Option Nat
  knowledge_check_score : Option ℚ
  deriving Repr, DecidableEq

/-- Phases of a course: the reverse accessor `course.phases` (Phase rows
whose foreign key is this course). -/
def Course.phases (phases : List Phase) (c : Course) : List Phase :=
  phases.filter (fun p => p.courseId == c.id)

/-- Course.total_price (models.py line 57): price_per_phase multiplied
by the number of phase rows of the course, recomputed on every read. -/
def Course.total_price (phases : List Phase) (c : Course) : ℚ :=
  c.price_per_phase * (c.phases phases).length

/-- Course.total_duration_days (models.py line 62): sum of the phase
durations. -/
def Course.total_duration_days (phases : List Phase) (c : Course) : Nat :=
  ((c.phases phases).map (fun p => p.duration_days)).sum

/-- Cohort.current_students_count (models.py line 192): the number of
enrollment rows of this cohort whose status is the literal string
active. -/
def Cohort.current_students_count (enrs : List StudentEnrollment)
    (c : Cohort) : Nat :=
  (enrs.filter (fun e => e.cohortId == c.id && e.status == "active")).length

/-- Cohort.is_full (models.py line 197): current_students_count is at
least max_students. -/
def Cohort.is_full (enrs : List StudentEnrollment) (c : Cohort) : Bool :=
  c.max_students ≤ c.current_students_count enrs

/-- Cohort.is_accepting_enrollments (models.py line 202): status is
upcoming, the cohort is not full, and the start date is strictly in the
future.  The source reads timezone.now().date(); that clock read is the
explicit `today` parameter here. -/
def Cohort.is_accepting_enrollments (enrs : List StudentEnrollment)
    (c : Cohort) (today : Nat) : Bool :=
  c.status == "upcoming" && !(c.is_full enrs) && today < c.start_date

/-- StudentProgress.save (models.py line 314): if the row is marked
completed and its completion date is unset, stamp it with the current
time; in every other case the stored completion date is left as it is.
The source reads timezone.now(); that clock read is the explicit `now`
parameter here. -/
def StudentProgress.save (p : StudentProgress) (now : Nat) :
    StudentProgress :=
  if p.is_completed && p.completion_date == none then
    { p with completion_date := some now }
  else
    p

/-- Modelled from the spec: the enrollment row `enroll` creates
(section 4.3) — status pending (the source model default, models.py line
238) and enrollment_date set to the creation instant (auto_now_add,
models.py line 237). -/
def newEnrollment (userId cohortId now : Nat) : StudentEnrollment :=
  { userId := userId
    cohortId := cohortId
    enrollment_date := now
    status := "pending"
    current_phase := none
    current_lesson := none }

/-- Modelled from the spec: `enroll(account, cohort)` (section 4.3),
absent from the source as a named operation.  Fails with
CapacityExceeded if `accepts_enrollment` is false at call time; fails
with AlreadyEnrolled if an enrollment for (account, cohort) already
exists; otherwise creates an enrollment with status pending and
enrollment_date = now.  An error leaves the store untouched (the error
value carries no new store). -/
def enroll (enrs : List StudentEnrollment) (c : Cohort)
    (userId now today : Nat) : Except String (List StudentEnrollment) :=
  if !(c.is_accepting_enrollments enrs today) then
    .error "CapacityExceeded"
  else if enrs.any (fun e => e.userId == userId && e.cohortId == c.id) then
    .error "AlreadyEnrolled"
  else
    .ok (newEnrollment userId c.id now :: enrs)

/-- Store after an enroll attempt: the new store on success, the old
store unchanged on failure (all-or-nothing, spec section 7). -/
def enroll_state (enrs : List StudentEnrollment) (c : Cohort)
    (userId now today : Nat) : List StudentEnrollment :=
  match enroll enrs c userId now today with
  | .ok enrs' => enrs'
  | .error _ => enrs

/-- Modelled from the spec: `advance(enrollment, new_phase, new_lesson)`
(section 4.3) — unconditional overwrite of the current_phase and
current_lesson pointers, no validation. -/
def advance (e : StudentEnrollment) (new_phase new_lesson : Option Nat) :
    StudentEnrollment :=
  { e with current_phase := new_phase, current_lesson := new_lesson }

/-- Modelled from the spec: `set_status(enrollment, new_status)`
(section 4.3) — unconditional overwrite, no transition table. -/
def set_status (e : StudentEnrollment) (new_status : String) :
    StudentEnrollment :=
  { e with status := new_status }

/-- The operations the spec exposes that mutate an existing enrollment
row: advance and set_status (section 4.3). -/
inductive EnrollmentOp where
  | advanceOp (new_phase new_lesson : Option Nat)
  | setStatusOp (new_status : String)
  deriving Repr, DecidableEq

/-- Apply one enrollment-mutating operation. -/
def applyEnrollmentOp (e : StudentEnrollment) : EnrollmentOp →
    StudentEnrollment
  | .advanceOp p l => advance e p l
  | .setStatusOp st => set_status e st

/-- Apply a sequence of enrollment-mutating operations. -/
def applyEnrollmentOps (e : StudentEnrollment) (ops : List EnrollmentOp) :
    StudentEnrollment :=
  ops.foldl applyEnrollmentOp e

/-- Knowledge-check score range check from the source validators
(models.py line 298: MinValueValidator(0), MaxValueValidator(100)). -/
def score_in_range (s : ℚ) : Bool :=
  0 ≤ s && s ≤ 100

/-- Modelled from the spec: the create-or-update step of
`record_progress` (section 4.4), absent from the source as a named
operation.  If no row exists for (account, lesson) one is created with
the source model defaults; the completed flag is set to the given value;
a given score is stored; the row then goes through StudentProgress.save,
which is the source method. -/
def upsert_progress (userId lessonId : Nat) (completed : Bool)
    (score : Option ℚ) (now : Nat) :
    List StudentProgress → List StudentProgress
  | [] =>
    [StudentProgress.save
      { userId := userId
        lessonId := lessonId
        is_completed := completed
        completion_date := none
        knowledge_check_score := score } now]
  | p :: rest =>
    if p.userId == userId && p.lessonId == lessonId then
      StudentProgress.save
        { p with
            is_completed := completed
            knowledge_check_score :=
              match score with
              | some s => some s
              | none => p.knowledge_check_score } now :: rest
    else
      p :: upsert_progress userId lessonId completed score now rest

/-- Modelled from the spec: `record_progress(account, lesson, completed,
score)` (section 4.4), absent from the source as a named operation.  A
score outside [0, 100] fails with ValidationError before any write (the
bounds are the source validators on knowledge_check_score); otherwise
the (account, lesson) row is created or updated and saved.  An error
leaves the store untouched. -/
def record_progress (db : List StudentProgress) (userId lessonId : Nat)
    (completed : Bool) (score : Option ℚ) (now : Nat) :
    Except String (List StudentProgress) :=
  match score with
  | some s =>
    if score_in_range s then
      .ok (upsert_progress userId lessonId completed score now db)
    else
      .error "ValidationError"
  | none => .ok (upsert_progress userId lessonId completed score now db)

/-- Store after a record_progress attempt: the new store on success, the
old store unchanged on failure (all-or-nothing, spec section 7). -/
def record_progress_state (db : List StudentProgress)
    (userId lessonId : Nat) (completed : Bool) (score : Option ℚ)
    (now : Nat) : List StudentProgress :=
  match record_progress db userId lessonId completed score now with
  | .ok db' => db'
  | .error _ => db

/-- Progress row stored for (account, lesson), if any. -/
def progress_for (db : List StudentProgress) (userId lessonId : Nat) :
    Option StudentProgress :=
  db.find? (fun p => p.userId == userId && p.lessonId == lessonId)

/-- Modelled from the spec: `add_phase(course, phase_number, name,
duration_days, prerequisites)` (section 4.1), absent from the source as
a named operation.  Fails with DuplicateKey if (course, phase_number)
exists; fails with InvalidReference if any prerequisite phase id does
not exist; fails with ValidationError if duration_days is outside
[1, 365] (the source validators on Phase.duration_days, models.py line
82); otherwise appends the new phase row.  An error leaves the store
untouched. -/
def add_phase (phases : List Phase) (courseId phase_number : Nat)
    (name : String) (duration_days : Nat) (prereqs : List Nat)
    (newId : Nat) : Except String (List Phase) :=
  if phases.any (fun p =>
      p.courseId == courseId && p.phase_number == phase_number) then
    .error "DuplicateKey"
  else if prereqs.any (fun pid => !(phases.any (fun p => p.id == pid))) then
    .error "InvalidReference"
  else if duration_days < 1 || 365 < duration_days then
    .error "ValidationError"
  else
    .ok ({ id := newId
           courseId := courseId
           phase_number := phase_number
           name := name
           duration_days := duration_days
           prerequisites := prereqs
           is_active := true } :: phases)

/-- Store after an add_phase attempt: the new store on success, the old
store unchanged on failure (all-or-nothing, spec section 7). -/
def add_phase_state (phases : List Phase) (courseId phase_number : Nat)
    (name : String) (duration_days : Nat) (prereqs : List Nat)
    (newId : Nat) : List Phase :=
  match add_phase phases courseId phase_number name duration_days prereqs
      newId with
  | .ok phases' => phases'
  | .error _ => phases

/-- Phase-store mutations the spec allows: adding a phase (section 4.1)
and removing one (plain delete, section 3 lifecycles). -/
inductive PhaseOp where
  | addOp (courseId phase_number : Nat) (name : String)
      (duration_days : Nat) (prereqs : List Nat) (newId : Nat)
  | removeOp (id : Nat)
  deriving Repr, DecidableEq

/-- Apply one phase-store mutation. -/
def applyPhaseOp (phases : List Phase) : PhaseOp → List Phase
  | .addOp courseId n name d prereqs newId =>
    add_phase_state phases courseId n name d prereqs newId
  | .removeOp i => phases.filter (fun p => !(p.id == i))

/-- Apply a sequence of phase-store mutations. -/
def applyPhaseOps (phases : List Phase) (ops : List PhaseOp) :
    List Phase :=
  ops.foldl applyPhaseOp phases

/-- Number of phase rows of a course in the current store. -/
def phase_count (phases : List Phase) (c : Course) : Nat :=
  (c.phases phases).length

/-- Two-seat upcoming cohort with a future start date, used for the
max_students = 2 enrollment scenario. -/
def cohortTwoSeats : Cohort :=
  { id := 1, courseId := 1, name := "Cohort A", start_date := 10,
    end_date := 20, status := "upcoming", max_students := 2 }

/-! Helper lemmas about StudentProgress.save. -/

theorem save_userId (p : StudentProgress) (now : Nat) :
    (p.save now).userId = p.userId := by
  unfold StudentProgress.save; split <;> rfl

theorem save_lessonId (p : StudentProgress) (now : Nat) :
    (p.save now).lessonId = p.lessonId := by
  unfold StudentProgress.save; split <;> rfl

theorem save_is_completed (p : StudentProgress) (now : Nat) :
    (p.save now).is_completed = p.is_completed := by
  unfold StudentProgress.save; split <;> rfl

theorem save_date_of_some (p : StudentProgress) (now t : Nat)
    (h : p.completion_date = some t) :
    (p.save now).completion_date = some t := by
  unfold StudentProgress.save
  rw [h]
  simpa using h

theorem save_date_of_completed_none (p : StudentProgress) (now : Nat)
    (h1 : p.is_completed = true) (h2 : p.completion_date = none) :
    (p.save now).completion_date = some now := by
  unfold StudentProgress.save
  rw [h1, h2]
  simp

/-- Claim C1: the enrollment-acceptance predicate
Cohort.is_accepting_enrollments returns true if and only if the cohort
status is upcoming, the number of status-active enrollments of the
cohort is strictly below max_students, and the start date is strictly
after today.  The predicate is a pure function of the store and the
date, so evaluating it changes no state. -/
theorem is_accepting_enrollments_iff (enrs : List StudentEnrollment)
    (c : Cohort) (today : Nat) :
    c.is_accepting_enrollments enrs today = true ↔
      (c.status = "upcoming" ∧
        c.current_students_count enrs < c.max_students ∧
        today < c.start_date) := by
  simp [Cohort.is_accepting_enrollments, Cohort.is_full, Nat.not_le, and_assoc]

/-- Claim C9: after every save of a progress row, a row whose completed
flag is true carries a non-null completion date. -/
theorem save_completed_implies_dated (p : StudentProgress) (now : Nat)
    (h : (p.save now).is_completed = true) :
    ((p.save now).completion_date).isSome = true := by
  rw [save_is_completed] at h
  cases hd : p.completion_date with
  | none =>
    rw [save_date_of_completed_none p now h hd]
    rfl
  | some t =>
    rw [save_date_of_some p now t hd]
    rfl

/-- Closed instance of save_completed_implies_dated: saving a completed,
not yet dated row yields a dated row. -/
theorem save_completed_implies_dated_witness :
    ((StudentProgress.save
        { userId := 1, lessonId := 2, is_completed := true,
          completion_date := none, knowledge_check_score := none }
        7).completion_date).isSome = true :=
  save_completed_implies_dated
    { userId := 1, lessonId := 2, is_completed := true,
      completion_date := none, knowledge_check_score := none }
    7 (by decide)

/-- Claim C10: an enrollment row whose status is not the literal string
active — in particular a freshly created one, whose status defaults to
pending — does not change the cohort's derived current_students_count or
is_full values: only status-active enrollments occupy a seat. -/
theorem nonactive_enrollment_frame (enrs : List StudentEnrollment)
    (c : Cohort) (e : StudentEnrollment) (u cid now : Nat)
    (h : e.status ≠ "active") :
    c.current_students_count (e :: enrs) = c.current_students_count enrs ∧
    c.is_full (e :: enrs) = c.is_full enrs ∧
    (newEnrollment u cid now).status = "pending" := by
  have hcount :
      c.current_students_count (e :: enrs) = c.current_students_count enrs := by
    simp [Cohort.current_students_count, List.filter_cons, h]
  refine ⟨hcount, ?_, rfl⟩
  simp [Cohort.is_full, hcount]

/-- Closed instance of nonactive_enrollment_frame: a pending enrollment
leaves the active-seat count of an empty cohort at zero. -/
theorem nonactive_enrollment_frame_witness :
    Cohort.current_students_count
        [newEnrollment 1 1 0]
        { id := 1, courseId := 1, name := "W", start_date := 10,
          end_date := 20, status := "upcoming", max_students := 2 }
      = Cohort.current_students_count []
        { id := 1, courseId := 1, name := "W", start_date := 10,
          end_date := 20, status := "upcoming", max_students := 2 } :=
  (nonactive_enrollment_frame []
    { id := 1, courseId := 1, name := "W", start_date := 10,
      end_date := 20, status := "upcoming", max_students := 2 }
    (newEnrollment 1 1 0) 1 1 0 (by decide)).1

/-- Claim C6: after any sequence of phase additions and removals, the
derived Course.total_price equals price_per_phase times the current
number of phases; in particular a course with price_per_phase 3000 and
two phases has total_price 6000. -/
theorem total_price_eq_price_times_count (ops : List PhaseOp)
    (phases : List Phase) (c : Course) :
    c.total_price (applyPhaseOps phases ops) =
      c.price_per_phase * (phase_count (applyPhaseOps phases ops) c : ℚ) ∧
    Course.total_price
        [{ id := 1, courseId := 1, phase_number := 1, name := "P1",
           duration_days := 30, prerequisites := [], is_active := true },
         { id := 2, courseId := 1, phase_number := 2, name := "P2",
           duration_days := 30, prerequisites := [], is_active := true }]
        { id := 1, slug := "cs-101", name := "CS 101",
          duration_months := 10, price_per_phase := 3000,
          is_active := true, is_featured := false }
      = 6000 := by
  constructor
  · rfl
  · norm_num [Course.total_price, Course.phases]

/-- Claim C3: an enrollment attempt into a cohort whose count of
status-active enrollments equals max_students fails with
CapacityExceeded, and the enrollment store is unchanged (no row is
created). -/
theorem enroll_full_capacity_exceeded (enrs : List StudentEnrollment)
    (c : Cohort) (u now today : Nat)
    (h : c.current_students_count enrs = c.max_students) :
    enroll enrs c u now today = .error "CapacityExceeded" ∧
    enroll_state enrs c u now today = enrs := by
  have hfull : c.is_full enrs = true := by
    simp [Cohort.is_full, h]
  have hacc : c.is_accepting_enrollments enrs today = false := by
    simp [Cohort.is_accepting_enrollments, hfull]
  constructor
  · simp [enroll, hacc]
  · simp [enroll_state, enroll, hacc]

/-- Closed instance of enroll_full_capacity_exceeded: a one-seat cohort
holding one active enrollment rejects a further enrollment. -/
theorem enroll_full_capacity_exceeded_witness :
    enroll
        [{ userId := 1, cohortId := 1, enrollment_date := 0,
           status := "active", current_phase := none,
           current_lesson := none }]
        { id := 1, courseId := 1, name := "W", start_date := 10,
          end_date := 20, status := "upcoming", max_students := 1 }
        2 5 0
      = .error "CapacityExceeded" ∧
    enroll_state
        [{ userId := 1, cohortId := 1, enrollment_date := 0,
           status := "active", current_phase := none,
           current_lesson := none }]
        { id := 1, courseId := 1, name := "W", start_date := 10,
          end_date := 20, status := "upcoming", max_students := 1 }
        2 5 0
      = [{ userId := 1, cohortId := 1, enrollment_date := 0,
           status := "active", current_phase := none,
           current_lesson := none }] :=
  enroll_full_capacity_exceeded
    [{ userId := 1, cohortId := 1, enrollment_date := 0,
       status := "active", current_phase := none,
       current_lesson := none }]
    { id := 1, courseId := 1, name := "W", start_date := 10,
      end_date := 20, status := "upcoming", max_students := 1 }
    2 5 0 (by decide)

/-- Claim C5: a record_progress call whose knowledge-check score lies
outside [0, 100] fails with ValidationError, and the progress store is
unchanged (no row is created or modified). -/
theorem record_progress_bad_score (db : List StudentProgress)
    (u l : Nat) (completed : Bool) (s : ℚ) (now : Nat)
    (h : s < 0 ∨ 100 < s) :
    record_progress db u l completed (some s) now = .error "ValidationError" ∧
    record_progress_state db u l completed (some s) now = db := by
  have hs : score_in_range s = false := by
    rcases h with h | h
    · simp [score_in_range, not_le.mpr h]
    · simp [score_in_range, not_le.mpr h]
  constructor
  · simp [record_progress, hs]
  · simp [record_progress_state, record_progress, hs]

/-- Closed instance of record_progress_bad_score: a score of 150 on an
empty store is rejected and the store stays empty. -/
theorem record_progress_bad_score_witness :
    record_progress [] 1 2 true (some 150) 9 = .error "ValidationError" ∧
    record_progress_state [] 1 2 true (some 150) 9 = [] :=
  record_progress_bad_score [] 1 2 true 150 9 (Or.inr (by norm_num))

/-- Claim C8: an add_phase call that names a prerequisite phase id not
present in the store fails with InvalidReference, and the phase store —
in particular every existing phase's prerequisite list — is exactly what
it was before the call (no partial write). -/
theorem add_phase_invalid_reference (phases : List Phase)
    (courseId n : Nat) (nm : String) (d : Nat) (prereqs : List Nat)
    (newId pid : Nat)
    (hnodup : ∀ p ∈ phases, ¬(p.courseId = courseId ∧ p.phase_number = n))
    (hmem : pid ∈ prereqs)
    (hmissing : ∀ p ∈ phases, p.id ≠ pid) :
    add_phase phases courseId n nm d prereqs newId = .error "InvalidReference" ∧
    add_phase_state phases courseId n nm d prereqs newId = phases ∧
    (add_phase_state phases courseId n nm d prereqs newId).map
        (fun p => p.prerequisites)
      = phases.map (fun p => p.prerequisites) := by
  have h1 : phases.any (fun p =>
      p.courseId == courseId && p.phase_number == n) = false := by
    simp only [List.any_eq_false, Bool.and_eq_true, beq_iff_eq, not_and]
    intro p hp hc
    exact fun hn => hnodup p hp ⟨hc, hn⟩
  have h2 : prereqs.any (fun pid' =>
      !(phases.any (fun p => p.id == pid'))) = true := by
    refine List.any_eq_true.mpr ⟨pid, hmem, ?_⟩
    simp only [Bool.not_eq_true', List.any_eq_false, beq_iff_eq]
    exact hmissing
  have herr : add_phase phases courseId n nm d prereqs newId =
      .error "InvalidReference" := by
    simp [add_phase, h1, h2]
  have hstate : add_phase_state phases courseId n nm d prereqs newId =
      phases := by
    simp [add_phase_state, herr]
  exact ⟨herr, hstate, by rw [hstate]⟩

/-- Closed instance of add_phase_invalid_reference: adding phase 2 with
the absent prerequisite id 99 to a one-phase store is rejected and the
store is unchanged. -/
theorem add_phase_invalid_reference_witness :
    add_phase
        [{ id := 1, courseId := 1, phase_number := 1, name := "P1",
           duration_days := 30, prerequisites := [], is_active := true }]
        1 2 "P2" 30 [99] 5
      = .error "InvalidReference" ∧
    add_phase_state
        [{ id := 1, courseId := 1, phase_number := 1, name := "P1",
           duration_days := 30, prerequisites := [], is_active := true }]
        1 2 "P2" 30 [99] 5
      = [{ id := 1, courseId := 1, phase_number := 1, name := "P1",
           duration_days := 30, prerequisites := [], is_active := true }] :=
  ⟨(add_phase_invalid_reference
      [{ id := 1, courseId := 1, phase_number := 1, name := "P1",
         duration_days := 30, prerequisites := [], is_active := true }]
      1 2 "P2" 30 [99] 5 99
      (by decide) (by decide) (by decide)).1,
    (add_phase_invalid_reference
      [{ id := 1, courseId := 1, phase_number := 1, name := "P1",
         duration_days := 30, prerequisites := [], is_active := true }]
      1 2 "P2" 30 [99] 5 99
      (by decide) (by decide) (by decide)).2.1⟩

/-- Enrollment-mutating operations (advance, set_status) never touch
the enrollment_date field. -/
theorem applyEnrollmentOps_enrollment_date (e : StudentEnrollment)
    (ops : List EnrollmentOp) :
    (applyEnrollmentOps e ops).enrollment_date = e.enrollment_date := by
  induction ops generalizing e with
  | nil => rfl
  | cons op rest ih =>
    have hstep : applyEnrollmentOps e (op :: rest) =
        applyEnrollmentOps (applyEnrollmentOp e op) rest := rfl
    rw [hstep, ih]
    cases op <;> rfl

/-- Claim C7: enroll fails with CapacityExceeded when the acceptance
predicate is false at call time; when the predicate holds it fails with
AlreadyEnrolled if a row for (account, cohort) already exists; otherwise
it creates a row with status pending whose enrollment_date is the
creation instant, and no later advance or set_status operation ever
changes that enrollment_date. -/
theorem enroll_contract (enrs : List StudentEnrollment) (c : Cohort)
    (u now today : Nat) :
    (c.is_accepting_enrollments enrs today = false →
      enroll enrs c u now today = .error "CapacityExceeded") ∧
    (c.is_accepting_enrollments enrs today = true →
      (∃ e ∈ enrs, e.userId = u ∧ e.cohortId = c.id) →
      enroll enrs c u now today = .error "AlreadyEnrolled") ∧
    (c.is_accepting_enrollments enrs today = true →
      (∀ e ∈ enrs, ¬(e.userId = u ∧ e.cohortId = c.id)) →
      enroll enrs c u now today = .ok (newEnrollment u c.id now :: enrs) ∧
      (newEnrollment u c.id now).status = "pending" ∧
      (newEnrollment u c.id now).enrollment_date = now ∧
      ∀ ops : List EnrollmentOp,
        (applyEnrollmentOps (newEnrollment u c.id now) ops).enrollment_date
          = now) := by
  refine ⟨?_, ?_, ?_⟩
  · intro hacc
    simp [enroll, hacc]
  · intro hacc hex
    have hdup : enrs.any
        (fun e => e.userId == u && e.cohortId == c.id) = true := by
      rcases hex with ⟨e, he, h1, h2⟩
      exact List.any_eq_true.mpr ⟨e, he, by simp [h1, h2]⟩
    simp [enroll, hacc, hdup]
  · intro hacc hnone
    have hdup : enrs.any
        (fun e => e.userId == u && e.cohortId == c.id) = false := by
      simp only [List.any_eq_false, Bool.and_eq_true, beq_iff_eq, not_and]
      intro e he h1
      exact fun h2 => hnone e he ⟨h1, h2⟩
    refine ⟨by simp [enroll, hacc, hdup], rfl, rfl, ?_⟩
    intro ops
    exact applyEnrollmentOps_enrollment_date (newEnrollment u c.id now) ops

/-- Closed instance of enroll_contract: enrolling into an empty upcoming
cohort with free seats and a future start date succeeds with a pending
row. -/
theorem enroll_contract_witness :
    enroll []
        { id := 1, courseId := 1, name := "W2", start_date := 10,
          end_date := 20, status := "upcoming", max_students := 2 }
        1 5 0
      = .ok [newEnrollment 1 1 5] :=
  ((enroll_contract []
      { id := 1, courseId := 1, name := "W2", start_date := 10,
        end_date := 20, status := "upcoming", max_students := 2 }
      1 5 0).2.2 (by decide) (by simp)).1

/-- The row upsert_progress stores for (account, lesson): the existing
row, if any, with its completed flag and score updated, or a fresh row
with the model defaults — in either case passed through
StudentProgress.save. -/
theorem progress_for_upsert (u l : Nat) (c : Bool) (s : Option ℚ)
    (now : Nat) (db : List StudentProgress) :
    progress_for (upsert_progress u l c s now db) u l =
      some (match progress_for db u l with
        | some p => StudentProgress.save
            { p with
                is_completed := c
                knowledge_check_score :=
                  match s with
                  | some v => some v
                  | none => p.knowledge_check_score } now
        | none => StudentProgress.save
            { userId := u, lessonId := l, is_completed := c,
              completion_date := none, knowledge_check_score := s } now) := by
  induction db with
  | nil =>
    simp only [upsert_progress, progress_for, List.find?_nil]
    rw [List.find?_cons_of_pos _ (by simp [save_userId, save_lessonId])]
  | cons p rest ih =>
    by_cases hp : (p.userId == u && p.lessonId == l) = true
    · simp only [upsert_progress, progress_for]
      rw [if_pos hp,
        List.find?_cons_of_pos _ (by simp [save_userId, save_lessonId, hp]),
        List.find?_cons_of_pos
          (p := fun e : StudentProgress => e.userId == u && e.lessonId == l) _ hp]
    · simp only [upsert_progress, progress_for]
      rw [if_neg hp,
        List.find?_cons_of_neg
          (p := fun e : StudentProgress => e.userId == u && e.lessonId == l) _ hp,
        List.find?_cons_of_neg
          (p := fun e : StudentProgress => e.userId == u && e.lessonId == l) _ hp]
      simpa only [progress_for] using ih

/-- Recording completion for (account, lesson) a second time leaves the
stored row — and hence its completion date — exactly as the first call
left it. -/
theorem record_progress_second_call_fixed (db : List StudentProgress)
    (u l t1 t2 : Nat) :
    progress_for (record_progress_state
        (record_progress_state db u l true none t1) u l true none t2) u l
      = progress_for (record_progress_state db u l true none t1) u l := by
  have hs1 : record_progress_state db u l true none t1 =
      upsert_progress u l true none t1 db := rfl
  have hs2 : record_progress_state
      (upsert_progress u l true none t1 db) u l true none t2 =
      upsert_progress u l true none t2
        (upsert_progress u l true none t1 db) := rfl
  rw [hs1, hs2, progress_for_upsert u l true none t2,
    progress_for_upsert u l true none t1]
  cases hq : progress_for db u l with
  | none => rfl
  | some q =>
    obtain ⟨qu, ql, qc, qd, qs⟩ := q
    cases qd <;> rfl

/-- Claim C4: the completion timestamp of a progress row is written
exactly once.  Saving a completed row with an unset completion date
stamps it with the current time; once the date is set, any later save —
with the completed flag set true again or toggled to any value — leaves
it unchanged; and a second identical record_progress(acct, lesson,
completed = true) call leaves the stored row, and so its timestamp,
exactly as the first call left it. -/
theorem completion_date_write_once (p : StudentProgress)
    (now now' t : Nat) (b : Bool) (db : List StudentProgress)
    (u l t1 t2 : Nat) :
    (p.is_completed = true → p.completion_date = none →
      (p.save now).completion_date = some now) ∧
    (p.completion_date = some t →
      ({ p with is_completed := b }.save now').completion_date = some t) ∧
    progress_for (record_progress_state
        (record_progress_state db u l true none t1) u l true none t2) u l
      = progress_for (record_progress_state db u l true none t1) u l := by
  refine ⟨save_date_of_completed_none p now, ?_, ?_⟩
  · intro h
    exact save_date_of_some _ now' t h
  · exact record_progress_second_call_fixed db u l t1 t2

/-- Closed instance of completion_date_write_once: saving a completed,
undated row at time 3 stamps completion date 3. -/
theorem completion_date_write_once_witness :
    (StudentProgress.save
        { userId := 1, lessonId := 2, is_completed := true,
          completion_date := none, knowledge_check_score := none }
        3).completion_date = some 3 :=
  (completion_date_write_once
      { userId := 1, lessonId := 2, is_completed := true,
        completion_date := none, knowledge_check_score := none }
      3 0 0 false [] 1 2 0 0).1 rfl rfl

/-- Claim C2 as stated is false on this model: in a two-seat upcoming
cohort with a future start date, enroll succeeds for accounts 1 and 2,
and the third enroll call for account 3 ALSO succeeds — the first two
rows are created with status pending, and only status-active rows count
toward capacity — rather than failing with CapacityExceeded. -/
theorem enroll_two_seats_third_succeeds :
    (enroll [] cohortTwoSeats 1 100 0).isOk = true ∧
    (enroll (enroll_state [] cohortTwoSeats 1 100 0)
        cohortTwoSeats 2 100 0).isOk = true ∧
    (enroll (enroll_state (enroll_state [] cohortTwoSeats 1 100 0)
        cohortTwoSeats 2 100 0) cohortTwoSeats 3 100 0).isOk = true := by
  refine ⟨rfl, rfl, rfl⟩

/-- Claim C2 amended: in a two-seat upcoming cohort with a future start
date, two enroll calls for distinct accounts succeed; after the two
resulting enrollments are set to status active, a third enroll call for
yet another account fails with CapacityExceeded. -/
theorem enroll_two_seats_capacity_after_activation :
    (enroll [] cohortTwoSeats 1 100 0).isOk = true ∧
    (enroll (enroll_state [] cohortTwoSeats 1 100 0)
        cohortTwoSeats 2 100 0).isOk = true ∧
    enroll ((enroll_state (enroll_state [] cohortTwoSeats 1 100 0)
          cohortTwoSeats 2 100 0).map (fun e => set_status e "active"))
        cohortTwoSeats 3 100 0
      = .error "CapacityExceeded" := by
  refine ⟨rfl, rfl, rfl⟩

end Bootcamp
